import Mathlib

/-!
Verification of the media-upload and log-translation adapters of the
repository, shallowly embedded from the Python sources
`_gcs_image_uploader.py` and `_logging_exporter.py`.

Python values that may be a string or a byte sequence are modelled by
`PyVal`; byte sequences are lists of naturals below 256; fallible Python
code is modelled in `Except String`, the error string naming the Python
exception that the statement raises.
-/

/-- Value of a Python expression that is either a text string or a byte
sequence, as returned by `GcsImageUploader._decode`. -/
inductive PyVal where
  | str : String → PyVal
  | bytes : List Nat → PyVal
deriving DecidableEq, Repr

/-- UTF-8 encoding of a single character, as `str.encode` in Python
produces for each code point. -/
def utf8EncodeChar (c : Char) : List Nat :=
  let n := c.toNat
  if n < 128 then [n]
  else if n < 2048 then [192 + n / 64, 128 + n % 64]
  else if n < 65536 then [224 + n / 4096, 128 + (n / 64) % 64, 128 + n % 64]
  else [240 + n / 262144, 128 + (n / 4096) % 64, 128 + (n / 64) % 64, 128 + n % 64]

/-- UTF-8 encoding of a string: `base64_data.encode(...)` in the source. -/
def utf8Bytes (s : String) : List Nat :=
  (s.data.map utf8EncodeChar).flatten

/-- Value of one base64 alphabet character, following the standard
alphabet used by the Python `base64` module. -/
def b64Val (c : Char) : Option Nat :=
  let n := c.toNat
  if 65 ≤ n ∧ n ≤ 90 then some (n - 65)
  else if 97 ≤ n ∧ n ≤ 122 then some (n - 71)
  else if 48 ≤ n ∧ n ≤ 57 then some (n + 4)
  else if c = '+' then some 62
  else if c = '/' then some 63
  else none

/-- Decodes a list of 6-bit values into bytes, 4 values giving 3 bytes,
with the final partial group of 2 or 3 values giving 1 or 2 bytes; a
group of a single leftover value is a padding error. -/
def b64Quads : List Nat → Option (List Nat)
  | [] => some []
  | a :: b :: c :: d :: rest =>
      (b64Quads rest).map (fun t =>
        let x := a * 262144 + b * 4096 + c * 64 + d
        x / 65536 :: x / 256 % 256 :: x % 256 :: t)
  | [a, b] => some [(a * 64 + b) / 16]
  | [a, b, c] => some [(a * 4096 + b * 64 + c) / 1024, (a * 4096 + b * 64 + c) / 4 % 256]
  | _ => none

/-- Model of `base64.b64decode` on a text argument: non-ASCII input
raises (a `ValueError`), characters outside the alphabet are discarded,
padding ends the data, and a total length that is not a multiple of four
is an incorrect-padding error. `none` stands for the `ValueError` family
of exceptions that the source catches. -/
def pyB64Decode (s : String) : Option (List Nat) :=
  if s.data.any (fun c => 128 ≤ c.toNat) then none
  else
    let kept := s.data.filter (fun c => (b64Val c).isSome || c == '=')
    let body := kept.takeWhile (fun c => c != '=')
    let pad := kept.length - body.length
    if (body.length + pad) % 4 != 0 then none
    else b64Quads (body.filterMap b64Val)

/-- Model of the Python `startswith` test. -/
def pyStartsWith (s pre : String) : Bool :=
  pre.data.isPrefixOf s.data

/-- Model of `GcsImageUploader._decode` from `_gcs_image_uploader.py`.
The source takes `base64_data[len('data:')]` — a single-character index,
not a slice — so `after_data` is one character (and indexing raises
`IndexError` when the input is exactly the five characters `data:`).
The later branches on `after_data` are embedded as written even though a
single character can never contain both `/` and `;`. -/
def pyDecode (base64_data : String) : Except String (PyVal × PyVal) :=
  if ¬ pyStartsWith base64_data "data:" then
    match pyB64Decode base64_data with
    | some raw_bytes => .ok (.str "applicaton/octet-stream", .bytes raw_bytes)
    | none => .ok (.bytes (utf8Bytes base64_data), .str "text/plain")
  else
    match base64_data.data.get? 5 with
    | none => .error "IndexError: string index out of range"
    | some ch =>
      let after_data : List Char := [ch]
      if ¬ (after_data.contains '/') || ¬ (after_data.contains ';') then
        .ok (.bytes (utf8Bytes base64_data), .str "text/plain")
      else
        let content_type := after_data.takeWhile (fun c => c != ';')
        let after_ct0 := (after_data.dropWhile (fun c => c != ';')).drop 1
        if ¬ (content_type.contains '/') then
          .ok (.bytes (utf8Bytes base64_data), .str "text/plain")
        else
          let proceed : List Char → Except String (PyVal × PyVal) := fun after_ct =>
            if ¬ pyStartsWith (String.mk after_ct) "base64," then
              .ok (.bytes (utf8Bytes base64_data), .str "text/plain")
            else
              match pyB64Decode (String.mk (after_ct.drop 7)) with
              | some raw_bytes => .ok (.str (String.mk content_type), .bytes raw_bytes)
              | none => .ok (.bytes (utf8Bytes base64_data), .str "text/plain")
          if pyStartsWith (String.mk after_ct0) "charset=" then
            if ¬ (after_ct0.contains ';') then
              .ok (.bytes (utf8Bytes base64_data), .str "text/plain")
            else
              proceed ((after_ct0.dropWhile (fun c => c != ';')).drop 1)
          else
            proceed after_ct0

/-- The module constant `_CONTENT_TYPE_TO_FILE_EXTENSION`. -/
def contentTypeToFileExt : List (String × String) :=
  [("image/jpeg", ".jpeg"),
   ("image/png", ".png"),
   ("image/webp", ".webp"),
   ("image/gif", ".gif"),
   ("application/pdf", ".pdf"),
   ("text/plain", ".txt")]

/-- Model of `GcsImageUploader._compute_suffix_for_content_type`: a table
lookup defaulting to the empty string. -/
def computeSuffixForContentType (content_type : String) : String :=
  (contentTypeToFileExt.lookup content_type).getD ""

/-- Model of `str.format` with automatic field numbering: `parts` are the
literal pieces of the template around each placeholder, `args` the
positional arguments; a placeholder without a corresponding argument is
an `IndexError`, extra arguments are ignored. -/
def pyFormatList : List String → List String → Except String String
  | [p], _ => .ok p
  | p :: ps, a :: rest => (pyFormatList ps rest).map (fun r => p ++ a ++ r)
  | _, [] => .error "IndexError: Replacement index out of range"
  | [], _ => .ok ""

/-- Model of `GcsImageUploader._compute_destination_uri`. The template in
the source is `{}/traces/{}/spans/{}/images/{}{}` — five placeholders —
formatted with only the four arguments `trace_id`, `span_id`,
`random_id`, `suffix`; `self._uri_prefix` is never interpolated. The
fresh `uuid.uuid4().hex` value is passed in as `random_id`. -/
def computeDestinationUri (uriPfx trace_id span_id content_type random_id : String) :
    Except String String :=
  let _ := uriPfx
  let suffix := computeSuffixForContentType content_type
  pyFormatList ["", "/traces/", "/spans/", "/images/", "", ""]
    [trace_id, span_id, random_id, suffix]

/-- Model of evaluating the expression `uri_prefix is none` in
`GcsImageUploader.__init__`: the lowercase name `none` is bound nowhere
in the module or in builtins, so evaluating it raises `NameError` before
the comparison happens, whatever the argument is. -/
def pyNameNoneCompare (x : Option String) : Except String Bool :=
  let _ := x
  .error "NameError: name none is not defined"

/-- Model of `GcsImageUploader.__init__` restricted to its validation of
the URI prefix (`env` models the `GCS_IMAGE_UPLOADING_URI_PREFIX`
environment variable consulted when the argument is absent). The
statements after the first line are embedded as written, although the
first line always raises. -/
def gcsImageUploaderInit (uriPfx0 : Option String) (env : String) :
    Except String String := do
  let isNoneV ← pyNameNoneCompare uriPfx0
  let uriPfx := if isNoneV then env else uriPfx0.getD ""
  if uriPfx = "" then
    throw "ValueError: Must supply a non-empty GCS URI prefix."
  if ¬ pyStartsWith uriPfx "gs://" then
    throw "ValueError: Invalid prefix URI. Must start with gs://"
  if "/".data.isSuffixOf uriPfx.data then
    throw "ValueError: Invalid prefix URI. Must not end with /."
  return uriPfx

/-- The `_PendingUpload` record. -/
structure PendingUpload where
  destination_uri : String
  metadata : List (String × String)
  payload : List Nat
  content_type : String

/-- A blob store state: objects by URI, and their metadata by URI. -/
structure BlobStore where
  objects : List (String × List Nat)
  objMeta : List (String × List (String × String))

/-- Sets a key in an association list, replacing any previous binding. -/
def dictSet {α : Type} (l : List (String × α)) (k : String) (v : α) :
    List (String × α) :=
  (k, v) :: l.filter (fun p => p.1 ≠ k)

/-- Model of `dict.update`: bindings of `upd` win over those of `base`. -/
def dictUpdate (base upd : List (String × String)) : List (String × String) :=
  upd.foldl (fun acc kv => dictSet acc kv.1 kv.2) base

/-- Model of evaluating the name `Blob` in `_UploadTask.execute`: the
module `_gcs_image_uploader.py` imports only `base64`, `logging`,
`uuid` and `Client`, so `Blob` (like `BytesIO`) is unbound and the first
statement of `execute` raises `NameError`. -/
def pyNameBlob : Except String Unit :=
  .error "NameError: name Blob is not defined"

/-- Model of `_UploadTask.execute` against a blob store state. The first
statement evaluates the unbound name `Blob`; the rest of the body —
write the payload, read the current object metadata (empty when absent),
merge the pending metadata on top, write the merged metadata back — is
embedded as written although it is unreachable. -/
def uploadTaskExecute (pending : PendingUpload) (store : BlobStore) :
    Except String BlobStore := do
  let _ ← pyNameBlob
  let objects := dictSet store.objects pending.destination_uri pending.payload
  let oldMeta := (store.objMeta.lookup pending.destination_uri).getD []
  let merged := dictUpdate oldMeta pending.metadata
  return { objects := objects,
           objMeta := dictSet store.objMeta pending.destination_uri merged }


/-- The six destination severity levels of `log_severity_pb2.LogSeverity`
that the translator produces. -/
inductive GcpSeverity where
  | DEFAULT
  | DEBUG
  | INFO
  | WARNING
  | ERROR
  | CRITICAL
deriving DecidableEq, Repr

/-- Value of `SeverityNumber.UNSPECIFIED` on the source severity scale. -/
def SEV_UNSPECIFIED : Nat := 0

/-- Value of `SeverityNumber.TRACE` on the source severity scale. -/
def SEV_TRACE : Nat := 1

/-- Value of `SeverityNumber.DEBUG` on the source severity scale. -/
def SEV_DEBUG : Nat := 5

/-- Value of `SeverityNumber.INFO` on the source severity scale. -/
def SEV_INFO : Nat := 9

/-- Value of `SeverityNumber.WARN` on the source severity scale. -/
def SEV_WARN : Nat := 13

/-- Value of `SeverityNumber.ERROR` on the source severity scale. -/
def SEV_ERROR : Nat := 17

/-- Value of `SeverityNumber.FATAL` on the source severity scale. -/
def SEV_FATAL : Nat := 21

/-- Model of `_otlp_severity_to_gcp_severity`: the literal chain of
guards from the source, including the redundant second DEBUG band, with
the final `return None` fallthrough as `none`. -/
def otlpSeverityToGcpSeverity (n : Nat) : Option GcpSeverity :=
  if n = SEV_UNSPECIFIED then some .DEFAULT
  else if SEV_TRACE ≤ n ∧ n < SEV_INFO then some .DEBUG
  else if SEV_DEBUG ≤ n ∧ n < SEV_INFO then some .DEBUG
  else if SEV_INFO ≤ n ∧ n < SEV_WARN then some .INFO
  else if SEV_WARN ≤ n ∧ n < SEV_ERROR then some .WARNING
  else if SEV_ERROR ≤ n ∧ n < SEV_FATAL then some .ERROR
  else if SEV_FATAL ≤ n then some .CRITICAL
  else none

/-- Modelled from the spec: the six half-open severity bands of section
4.5 — UNSPECIFIED to DEFAULT, the merged [TRACE, INFO) band to DEBUG,
[INFO, WARN) to INFO, [WARN, ERROR) to WARNING, [ERROR, FATAL) to ERROR,
and [FATAL, infinity) to CRITICAL. -/
def severityBandsSpec (n : Nat) : GcpSeverity :=
  if n = SEV_UNSPECIFIED then .DEFAULT
  else if SEV_TRACE ≤ n ∧ n < SEV_INFO then .DEBUG
  else if SEV_INFO ≤ n ∧ n < SEV_WARN then .INFO
  else if SEV_WARN ≤ n ∧ n < SEV_ERROR then .WARNING
  else if SEV_ERROR ≤ n ∧ n < SEV_FATAL then .ERROR
  else .CRITICAL

/-- Model of `str.lower` for the ASCII range. -/
def pyLower (s : String) : String :=
  String.mk (s.data.map Char.toLower)

/-- Model of the trailing-digit-stripping loop of
`_otlp_severity_text_to_gcp_severity`, acting on the reversed character
list: `while lower_text[-1].isdigit()` indexes the last character, which
raises `IndexError` once the string is empty. -/
def stripDigitLoopRev : List Char → Except String (List Char)
  | [] => .error "IndexError: string index out of range"
  | c :: rest => if c.isDigit then stripDigitLoopRev rest else .ok (c :: rest)

/-- The `prefix_map` table of `_otlp_severity_text_to_gcp_severity`,
with `dict.get` and its DEFAULT fallback. -/
def severityTextTable (t : String) : GcpSeverity :=
  if t = "trace" then .DEBUG
  else if t = "debug" then .DEBUG
  else if t = "info" then .INFO
  else if t = "warn" then .WARNING
  else if t = "error" then .ERROR
  else if t = "fatal" then .CRITICAL
  else .DEFAULT

/-- Model of `_otlp_severity_text_to_gcp_severity`: lower-case, strip
trailing decimal digits (raising `IndexError` when the text runs out),
then look the result up in the table, defaulting to DEFAULT. -/
def otlpSeverityTextToGcpSeverity (oseverity_text : String) :
    Except String GcpSeverity := do
  let lower := pyLower oseverity_text
  let strippedRev ← stripDigitLoopRev lower.data.reverse
  return severityTextTable (String.mk strippedRev.reverse)

/-- The log-record fields of the source `LogRecord` that the exporter
reads, values rendered as strings the way `str.format` would render
them, absent values as `none`. -/
structure LogRecordModel where
  timestamp : Option String
  trace_id : Option String
  span_id : Option String
  attributes : List (String × String)
  severity_number : Option Nat
  severity_text : Option String

/-- The resource carried by a log record: its attribute mapping. -/
structure ResourceModel where
  attributes : List (String × String)

/-- The `_OtlpLog` view: the class defines exactly the properties
`project`, `resource`, `scope` and `record` (its constructor also binds
`self._log_data` to the unbound name `log`, a `NameError` of its own,
which this structure elides in order to reach the later slips). -/
structure OtlpLogModel where
  project : String
  record : LogRecordModel
  resource : ResourceModel

/-- Model of evaluating `olog.log` in `_compute_insert_id`: `_OtlpLog`
has no attribute `log` (the record property is named `record`), so the
access raises `AttributeError`. -/
def ologAttrLog (o : OtlpLogModel) : Except String LogRecordModel :=
  let _ := o
  .error "AttributeError: _OtlpLog object has no attribute log"

/-- Model of `hasher.update(...)` as called by the source: every call
site passes a `str`, and `hashlib` update methods require bytes, so the
call raises `TypeError`. The accumulator records what a correct call
would have fed. -/
def pyHasherUpdateStr (acc : List String) (s : String) :
    Except String (List String) :=
  let _ := acc
  let _ := s
  .error "TypeError: Strings must be encoded before hashing"

/-- Model of `_add_to_hasher`: renders each property as `name=value`,
with a missing value rendered as the literal `(null)`, and feeds it to
the hasher (whose update raises, as the source passes strings). -/
def addToHasher (acc : List String) : List (String × Option String) →
    Except String (List String)
  | [] => .ok acc
  | (n, v) :: rest => do
      let acc2 ← pyHasherUpdateStr acc (n ++ "=" ++ v.getD "(null)")
      addToHasher acc2 rest

/-- Insertion of a string into a sorted list of strings. -/
def insertSorted (x : String) : List String → List String
  | [] => [x]
  | y :: ys => if x ≤ y then x :: y :: ys else y :: insertSorted x ys

/-- Model of `sorted` over a list of keys. -/
def sortStrings (l : List String) : List String :=
  l.foldr insertSorted []

/-- Model of evaluating `resource_attributes.key` in
`_compute_insert_id`: a mapping has no attribute `key` (the method is
`keys`), so the access raises `AttributeError`. -/
def pyDictAttrKey (d : List (String × String)) : Except String (List String) :=
  let _ := d
  .error "AttributeError: dict object has no attribute key"

/-- Model of the hex digest of the fed chunks, abstracted as a pure
function of the byte sequence fed to the hasher: the chunks joined in
order stand in for the digest value, which is all the determinism
claims depend on. -/
def hexDigestModel (hash_algo : String) (chunks : List String) : String :=
  hash_algo ++ ":" ++ String.join chunks

/-- Model of `_compute_insert_id` from `_logging_exporter.py`, statement
by statement: the first read, `olog.log.attributes`, raises
`AttributeError` (the view only defines `record`); the rest of the body
— the four identifying fields through `_add_to_hasher`, the other
record attribute keys in sorted order, the resource attribute keys in
sorted order, then the hex digest — is embedded as written although it
is unreachable (and itself contains the string-update `TypeError` and
the `.key` `AttributeError`). -/
def computeInsertId (hash_algo : String) (o : OtlpLogModel) :
    Except String String := do
  let log ← ologAttrLog o
  let attributes := log.attributes
  let event_name := (attributes.lookup "event.name").getD ""
  let acc ← addToHasher []
      [("event_name", some event_name),
       ("timestamp", log.timestamp),
       ("trace_id", log.trace_id),
       ("span_id", log.span_id)]
  let otherKeys := (attributes.map Prod.fst).filter (fun k => k ≠ "event.name")
  let acc ← (sortStrings otherKeys).foldlM
      (fun a k => pyHasherUpdateStr a
        ("attributes[" ++ k ++ "]=" ++ ((attributes.lookup k).getD "")))
      acc
  let resKeys ← pyDictAttrKey o.resource.attributes
  let acc ← (sortStrings resKeys).foldlM
      (fun a k => pyHasherUpdateStr a
        ("resource.attributes[" ++ k ++ "]=" ++ ((o.resource.attributes.lookup k).getD "")))
      acc
  return hexDigestModel hash_algo acc

/-- Model of evaluating `olog.severity_number` in `_compute_severity`:
`_OtlpLog` defines no such property (the field lives on the record, as
`olog.record.severity_number`), so the access raises `AttributeError`. -/
def ologAttrSeverityNum (o : OtlpLogModel) : Except String (Option Nat) :=
  let _ := o
  .error "AttributeError: _OtlpLog object has no attribute severity_number"

/-- Model of evaluating `olog.severity_text` in `_compute_severity`:
also not a property of the view. -/
def ologAttrSeverityText (o : OtlpLogModel) : Except String (Option String) :=
  let _ := o
  .error "AttributeError: _OtlpLog object has no attribute severity_text"

/-- Model of `_compute_severity`: numeric severity first when present,
severity text only as fallback when truthy, otherwise no severity at
all; the first attribute access raises, and the rest is embedded as
written although unreachable. -/
def computeSeverity (o : OtlpLogModel) : Except String (Option GcpSeverity) := do
  let oseverity_number ← ologAttrSeverityNum o
  match oseverity_number with
  | some n => return otlpSeverityToGcpSeverity n
  | none => do
    let oseverity_text ← ologAttrSeverityText o
    match oseverity_text with
    | some t =>
        if t ≠ "" then do
          let s ← otlpSeverityTextToGcpSeverity t
          return some s
        else
          return none
    | none => return none

/-- Helper: on a reversed character list containing at least one
non-digit, the digit-stripping loop terminates without raising and
returns the list with its leading digits dropped. -/
theorem stripDigitLoopRev_ok (l : List Char)
    (h : l.any (fun c => ! c.isDigit) = true) :
    stripDigitLoopRev l = Except.ok (l.dropWhile Char.isDigit) := by
  induction l with
  | nil => simp at h
  | cons c rest ih =>
    by_cases hc : c.isDigit
    · have hrest : rest.any (fun c => ! c.isDigit) = true := by
        simpa [List.any_cons, hc] using h
      simp [stripDigitLoopRev, hc, List.dropWhile_cons, ih hrest]
    · simp [stripDigitLoopRev, hc, List.dropWhile_cons]

/-- C1: false of the code. The claim says decode never raises on a
malformed `data:` payload and returns the pair (text/plain content type,
utf8 bytes). The source instead indexes `base64_data[len('data:')]`, so
the five-character input `data:` raises `IndexError`, and every other
malformed `data:` input returns the pair with its two components
swapped: the bytes first and the `text/plain` content type second. -/
theorem decode_malformed_raises_and_swaps_pair :
    pyDecode "data:" = Except.error "IndexError: string index out of range" ∧
    pyDecode "data:text;base64,AAAA" =
      Except.ok (PyVal.bytes (utf8Bytes "data:text;base64,AAAA"),
        PyVal.str "text/plain") :=
  ⟨rfl, rfl⟩

/-- C2: false of the code. The claim says computeInsertId is a pure
function of the record fields, invariant to attribute ordering; the
source never produces a digest at all — its first read, `olog.log`, is
an attribute the view does not define, so every invocation raises
`AttributeError` (and the body behind it feeds `str` values to the
hasher, a `TypeError`, and reads `resource_attributes.key`, another
`AttributeError`). -/
theorem compute_insert_id_never_returns_digest (algo : String) (o : OtlpLogModel) :
    computeInsertId algo o =
      Except.error "AttributeError: _OtlpLog object has no attribute log" :=
  rfl

/-- C3: false of the code. For a well-formed `data:<mime>;base64,<b64>`
input the claim says decode returns the parsed MIME type with the
decoded payload; the source inspects only the single character at index
five, so the input falls into the malformed fallback and returns the
utf8 bytes of the whole string with `text/plain`. The raw-base64 branch
does return (content type, bytes) but with the content type misspelled
`applicaton/octet-stream`. -/
theorem decode_wellformed_data_uri_falls_to_fallback :
    pyDecode "data:image/png;base64,AAAA" =
      Except.ok (PyVal.bytes (utf8Bytes "data:image/png;base64,AAAA"),
        PyVal.str "text/plain") ∧
    pyDecode "AAAA" =
      Except.ok (PyVal.str "applicaton/octet-stream", PyVal.bytes [0, 0, 0]) :=
  ⟨rfl, rfl⟩

/-- C4: false of the code. The claim says the allocator returns
`<uri_prefix>/traces/<trace_id>/spans/<span_id>/images/<hex><ext>`; the
source formats a five-placeholder template with only four arguments
(and never passes the URI prefix), so the call raises `IndexError`. -/
theorem compute_destination_uri_raises_index_error :
    computeDestinationUri "gs://bucket" "t1" "s1" "image/png"
      "0123456789abcdef0123456789abcdef" =
      Except.error "IndexError: Replacement index out of range" :=
  rfl

/-- C5: confirmed. The numeric severity mapping is total and gap-free
over the source scale: every severity number maps to exactly the level
given by the half-open bands of the spec — UNSPECIFIED to DEFAULT, the
merged [TRACE, INFO) band to DEBUG, [INFO, WARN) to INFO, [WARN, ERROR)
to WARNING, [ERROR, FATAL) to ERROR, and [FATAL, on) to CRITICAL. -/
theorem severity_number_mapping_total_gap_free (n : Nat) :
    otlpSeverityToGcpSeverity n = some (severityBandsSpec n) := by
  unfold otlpSeverityToGcpSeverity severityBandsSpec
    SEV_UNSPECIFIED SEV_TRACE SEV_DEBUG SEV_INFO SEV_WARN SEV_ERROR SEV_FATAL
  split_ifs <;> first | rfl | omega

/-- C6 counterexample: the claim says the text mapping is total over all
strings, including the empty string and all-digit strings, and never
raises; on the empty string the digit-stripping loop indexes the last
character of an empty string and raises `IndexError` (an all-digit
string reaches the same state after stripping). -/
theorem severity_text_mapping_raises_on_empty :
    otlpSeverityTextToGcpSeverity "" =
      Except.error "IndexError: string index out of range" ∧
    otlpSeverityTextToGcpSeverity "42" =
      Except.error "IndexError: string index out of range" :=
  ⟨rfl, rfl⟩

/-- C6 amended: for every input string whose lower-cased form contains
at least one non-digit character, the text mapping lower-cases the text,
strips trailing decimal digits, looks the result up exactly in the
severity table (DEFAULT when absent) and returns without raising; empty
and all-digit inputs instead raise `IndexError`. -/
theorem severity_text_mapping_total_on_nondigit_input (s : String)
    (h : (pyLower s).data.any (fun c => ! c.isDigit) = true) :
    otlpSeverityTextToGcpSeverity s =
      Except.ok (severityTextTable
        (String.mk (((pyLower s).data.reverse.dropWhile Char.isDigit).reverse))) := by
  have h2 : (pyLower s).data.reverse.any (fun c => ! c.isDigit) = true := by
    simpa using h
  simp only [otlpSeverityTextToGcpSeverity]
  rw [stripDigitLoopRev_ok _ h2]
  rfl

/-- C6 witness: the amended theorem applied at the concrete input WARN2,
which strips to warn and maps to WARNING. -/
theorem severity_text_mapping_nondigit_witness :
    otlpSeverityTextToGcpSeverity "WARN2" = Except.ok GcpSeverity.WARNING := by
  rw [severity_text_mapping_total_on_nondigit_input "WARN2" (by decide)]
  rfl

/-- C7: false of the code. The claim describes the exact sequence fed to
the digest; the source feeds nothing — evaluated at a concrete log view
carrying an event name, attributes and resource attributes, the first
statement raises `AttributeError` on `olog.log` before any field
reaches the hasher. -/
theorem compute_insert_id_concrete_input_raises :
    computeInsertId "sha1"
      { project := "demo",
        record := { timestamp := some "1730000000000000000",
                    trace_id := some "4bf92f3577b34da6a3ce929d0e0e4736",
                    span_id := some "00f067aa0ba902b7",
                    attributes := [("event.name", "gen_ai.user.message"),
                                   ("b", "2"), ("a", "1")],
                    severity_number := none,
                    severity_text := none },
        resource := { attributes := [("service.name", "svc")] } } =
      Except.error "AttributeError: _OtlpLog object has no attribute log" :=
  rfl

/-- C8: false of the code. The claim says construction succeeds for
every valid URI prefix and fails only on invalid ones; the first
statement of the constructor compares against the unbound lowercase
name `none`, so every construction — valid prefix or not — raises
`NameError` before any validation runs. -/
theorem uploader_init_always_raises_name_error (uriPfx0 : Option String) (env : String) :
    gcsImageUploaderInit uriPfx0 env =
      Except.error "NameError: name none is not defined" :=
  rfl

/-- C9: false of the code. The claim says an executed upload task writes
the payload and merges metadata; the first statement of `execute`
references `Blob`, which the module never imports (as with `BytesIO`),
so every execution raises `NameError` and the store is never touched. -/
theorem upload_task_execute_raises_name_error (pending : PendingUpload) (store : BlobStore) :
    uploadTaskExecute pending store =
      Except.error "NameError: name Blob is not defined" :=
  rfl

/-- C10: false of the code. The claim says a record with no numeric
severity and no severity text yields no severity value at all; the
source reads `olog.severity_number`, a property the view does not
define, so severity computation raises `AttributeError` instead of
returning the unset severity. -/
theorem compute_severity_raises_attribute_error :
    computeSeverity
      { project := "demo",
        record := { timestamp := none, trace_id := none, span_id := none,
                    attributes := [], severity_number := none,
                    severity_text := none },
        resource := { attributes := [] } } =
      Except.error "AttributeError: _OtlpLog object has no attribute severity_number" :=
  rfl
